import Mathlib

/-!
Verification of the portfolio/blog backend
(`src/generated_projects/portfolio_website_with_blog/backend/app.py`).

The development shallowly embeds the request-scoped data model and the
handlers that carry logic: the mock inference pipeline
(`MockPreprocessor.preprocess`, `MockModel.predict`), the admin gate
(`authenticate_admin`), the health reporter (`health_check`) and the
conditional `/predict` endpoint.  Python numbers are modelled by `ℚ`
(exact arithmetic); Python's dynamic type test
`isinstance(v, (int, float))` is modelled faithfully, in particular it
accepts `bool` values, since `bool` is a subclass of `int` in Python.
-/

/-- A JSON scalar value as carried by a pipeline `Record`:
number, string, boolean or null. -/
inductive Value where
  | num  (q : ℚ)
  | str  (s : String)
  | bool (b : Bool)
  | null
deriving DecidableEq, Repr

/-- A `Record` is a Python dict from field name to scalar value, modelled
as an ordered association list (Python dicts preserve insertion order). -/
abbrev Record := List (String × Value)

/-- An element of the `data` list handed to the pipeline: either a dict
(the normal case) or some non-mapping value, which both stages treat
specially (`isinstance(item, dict)` checks in the source). -/
inductive Item where
  | dict   (r : Record)
  | scalar (v : Value)
deriving DecidableEq, Repr

/-- Python's `isinstance(v, (int, float))` on a JSON scalar.  Note that
`bool` is a subclass of `int` in Python, so booleans pass this test. -/
def isNumericPy : Value → Bool
  | .num _  => true
  | .bool _ => true
  | _       => false

/-- The numeric content of a value passing `isNumericPy`
(`True` is `1`, `False` is `0` in Python arithmetic). -/
def toNum : Value → ℚ
  | .num q  => q
  | .bool b => if b then 1 else 0
  | _       => 0

/-- Python's `v * 10` applied when `isinstance(v, (int, float))`, the value
kept unchanged otherwise — the value part of the dict comprehension in
`MockPreprocessor.preprocess`.  Multiplying a `bool` by `10` yields an
`int` in Python, hence the result is always a number on the scaled branch. -/
def scaleValue (v : Value) : Value :=
  if isNumericPy v then Value.num (toNum v * 10) else v

namespace MockPreprocessor

/-- The dict comprehension of `MockPreprocessor.preprocess`:
each `(k, v)` pair becomes
`(f"processed_" + k, v * 10 if isinstance(v, (int, float)) else v)`. -/
def processRecord (r : Record) : Record :=
  r.map fun kv => ("processed_" ++ kv.1, scaleValue kv.2)

/-- The body of `MockPreprocessor.preprocess` for one list element: a dict
is rewritten by the comprehension, a non-dict element is passed through
unchanged. -/
def processItem : Item → Item
  | .dict r   => .dict (processRecord r)
  | .scalar v => .scalar v

/-- `MockPreprocessor.preprocess`: the `for item in data` loop appending
one processed element per input element. -/
def preprocess : List Item → List Item
  | []          => []
  | item :: rest => processItem item :: preprocess rest

end MockPreprocessor

/-- The numeric values of a record, in order:
`[v for v in item.values() if isinstance(v, (int, float))]` of
`MockModel.predict`, with each kept value read as a number. -/
def numericValuesPy (r : Record) : List ℚ :=
  ((r.map Prod.snd).filter isNumericPy).map toNum

namespace MockModel

/-- The score `MockModel.predict` appends for one list element: the mean
`sum(numeric_values) / len(numeric_values)` when the element is a dict
with at least one value passing `isinstance(v, (int, float))`, and the
default `0.5` otherwise (empty collection, or non-dict element). -/
def scoreItem : Item → ℚ
  | .dict r =>
      let nv := numericValuesPy r
      if nv.isEmpty then 0.5 else nv.sum / nv.length
  | .scalar _ => 0.5

/-- `MockModel.predict`: the `for item in data` loop appending one score
per input element. -/
def predict : List Item → List ℚ
  | []           => []
  | item :: rest => scoreItem item :: predict rest

end MockModel

/-- The arithmetic mean of a list of rationals, stated independently of
the pipeline code. -/
def mean (l : List ℚ) : ℚ := l.sum / l.length

/-- `PROJECT_NAME` from the configuration block. -/
def PROJECT_NAME : String := "Portfolio Website with Blog"

/-- `FAKE_ADMIN_TOKEN`, the configured shared admin secret. -/
def FAKE_ADMIN_TOKEN : String := "supersecretadmintoken"

/-- An HTTP error raised via `HTTPException`: status code, detail message
and the extra response headers passed to the exception (the admin gate
attaches a `WWW-Authenticate` challenge header). -/
structure HError where
  status_code : Nat
  detail      : String
  headers     : List (String × String) := []
deriving DecidableEq, Repr

/-- The body of a successful `/predict` response
(`PredictionOutput`): the score list and the status tag. -/
structure PredictionOutput where
  predictions : List ℚ
  status      : String := "success"
deriving DecidableEq, Repr

/-- The process-lifetime AI state set by the startup block (lines 81-102):
the flag `AI_ENABLED` after the `try` block ran, and the two module-level
`Optional` globals `ml_model` and `preprocessor`.  The mock objects carry
no state, so the `Optional[MockModel]` / `Optional[MockPreprocessor]`
globals are modelled by `Option Unit`. -/
structure AppState where
  aiEnabled    : Bool
  ml_model     : Option Unit
  preprocessor : Option Unit
deriving DecidableEq, Repr

/-- The state the source reaches on a normal startup: `AI_ENABLED` is
`True` (line 18), the `try` block instantiates both mock objects and no
exception occurs, so both globals are populated. -/
def initializedState : AppState := ⟨true, some (), some ()⟩

/-- Python truthiness of the optional header value (`not token` in
`authenticate_admin`): `None` and the empty string are falsy. -/
def pyFalsy : Option String → Bool
  | none   => true
  | some s => s = ""

/-- The 401 error raised by `authenticate_admin`, with its
`WWW-Authenticate: Bearer` challenge header. -/
def authError : HError :=
  { status_code := 401
    detail := "Authentication failed: Invalid or missing admin token"
    headers := [("WWW-Authenticate", "Bearer")] }

/-- The body of `authenticate_admin` (lines 132-143): given whatever
value its `token` argument is bound to, it raises 401 with a challenge
header when `not token or token != FAKE_ADMIN_TOKEN`; otherwise it
returns `True`.  Note that on real requests this body is unreachable:
the dependency wiring that is declared to deliver the header value to
`token` fails before it runs (see `tokenLambda` and `resolveTokenDep`). -/
def authenticate_admin (token : Option String) : Except HError Bool :=
  if pyFalsy token || token ≠ some FAKE_ADMIN_TOKEN then
    .error authError
  else
    .ok true

/-- The 422 response FastAPI's request validation produces when a
required query parameter is missing.  The dependency callable at line
132, `lambda x: x.headers.get("X-Admin-Token")`, leaves its parameter
`x` unannotated, and FastAPI treats an unannotated dependency parameter
as a required query parameter — never as the request object, which
would need an explicit `Request` annotation.  A request without `?x=`
therefore fails validation before any handler code runs. -/
def validationError : HError :=
  { status_code := 422, detail := "field required: query parameter x" }

/-- The 500 response the server produces when the dependency callable
raises: with `?x=` supplied, `x` is bound to a `str`, and a Python
`str` has no `headers` attribute, so `x.headers` raises
`AttributeError`, surfaced as an internal server error. -/
def attributeError : HError :=
  { status_code := 500, detail := "AttributeError: str object has no attribute headers" }

/-- The dependency callable `lambda x: x.headers.get("X-Admin-Token")`
as FastAPI actually invokes it: `x` is a query-parameter string, never
the request, and the attribute access `x.headers` on a `str` raises
`AttributeError` for every string. -/
def tokenLambda (_ : String) : Except HError (Option String) :=
  .error attributeError

/-- A request to a gated admin route, as far as the gate's wiring can
observe it: the optional `x` query parameter FastAPI binds the lambda's
parameter to, and the optional `X-Admin-Token` header the gate was
meant to read (it never does). -/
structure AdminRequest where
  queryX      : Option String
  headerToken : Option String
deriving DecidableEq, Repr

/-- FastAPI's resolution of the dependency feeding `authenticate_admin`
on a gated route: the lambda's unannotated parameter is a required
query parameter (missing it is a 422 validation failure), and when it
is present the lambda itself raises (a 500).  The request's
`X-Admin-Token` header is never consulted. -/
def resolveTokenDep (req : AdminRequest) : Except HError (Option String) :=
  match req.queryX with
  | none   => .error validationError
  | some s => tokenLambda s

/-- The response body of `admin_dashboard` (the wrapped handler of
`GET /admin/dashboard`). -/
def admin_dashboard : Unit → List (String × String) := fun _ =>
  [("message", "Welcome to the Admin Dashboard!"),
   ("page", "Admin Dashboard"),
   ("status", "authenticated")]

/-- `GET /admin/dashboard` as actually dispatched: FastAPI resolves the
dependency chain first — the lambda (`resolveTokenDep`), then the
`authenticate_admin` body on its result — and only when no step raised
does the handler body execute. -/
def adminDashboardRoute (req : AdminRequest) :
    Except HError (List (String × String)) :=
  match resolveTokenDep req with
  | .error e => .error e
  | .ok token =>
      match authenticate_admin token with
      | .error e => .error e
      | .ok _    => .ok (admin_dashboard ())

/-- The `/predict` route as registered at startup (lines 221-255): when
`AI_ENABLED` ended up `True` the handler `predict` is installed — it
raises 503 when `ml_model is None or preprocessor is None` and otherwise
runs `predict(preprocess(data))` and returns the scores with the
`success` tag; when `AI_ENABLED` ended up `False` the handler
`predict_disabled` is installed, which raises 403 unconditionally. -/
def predictRoute (st : AppState) (data : List Item) :
    Except HError PredictionOutput :=
  if st.aiEnabled then
    match st.ml_model, st.preprocessor with
    | some _, some _ =>
        .ok { predictions := MockModel.predict (MockPreprocessor.preprocess data)
              status := "success" }
    | _, _ =>
        .error { status_code := 503, detail := "AI models are not loaded or available." }
  else
    .error { status_code := 403, detail := "AI features are disabled for this service." }

/-- A UTC instant at second precision, the data `datetime.datetime.now`
provides to the health reporter. -/
structure UTCTime where
  year   : Nat
  month  : Nat
  day    : Nat
  hour   : Nat
  minute : Nat
  second : Nat
deriving DecidableEq, Repr

/-- Zero-pad a numeral to two digits, as `%02d` does. -/
def pad2 (n : Nat) : String :=
  if n < 10 then "0" ++ toString n else toString n

/-- Zero-pad a year to four digits, as `%04d` does. -/
def pad4 (n : Nat) : String :=
  if n < 10 then "000" ++ toString n
  else if n < 100 then "00" ++ toString n
  else if n < 1000 then "0" ++ toString n
  else toString n

/-- Models Python's `datetime.isoformat(timespec="seconds")` on a
timezone-aware UTC datetime (the value built by
`datetime.datetime.now(datetime.timezone.utc)`): the date, a `T`
separator, the time to second precision, and the numeric UTC offset
`+00:00` that `isoformat` always appends for an aware datetime. -/
def isoformatSecondsUTC (t : UTCTime) : String :=
  pad4 t.year ++ "-" ++ pad2 t.month ++ "-" ++ pad2 t.day ++ "T" ++
    pad2 t.hour ++ ":" ++ pad2 t.minute ++ ":" ++ pad2 t.second ++ "+00:00"

/-- The response body of `GET /health` (`HealthCheckResponse`). -/
structure HealthCheckResponse where
  status    : String
  timestamp : String
  service   : String
deriving DecidableEq, Repr

/-- `health_check`: builds the response from the current UTC instant,
with `timestamp` being the aware-datetime `isoformat` string with a
literal `"Z"` appended (line 215 of the source). -/
def health_check (now : UTCTime) : HealthCheckResponse :=
  { status := "healthy"
    timestamp := isoformatSecondsUTC now ++ "Z"
    service := PROJECT_NAME }

/-- Whether a string has the exact shape `YYYY-MM-DDTHH:MM:SSZ`: an
ISO-8601 UTC instant at second precision whose zone designator is a
single trailing `Z`.  Stated from the spec's words (and the source's own
`Field` example `2023-10-27T10:00:00Z`) to compare against what
`health_check` produces. -/
def isIso8601Z (s : String) : Bool :=
  match s.toList with
  | [y1, y2, y3, y4, '-', m1, m2, '-', d1, d2, 'T',
     h1, h2, ':', mi1, mi2, ':', s1, s2, 'Z'] =>
      y1.isDigit && y2.isDigit && y3.isDigit && y4.isDigit &&
      m1.isDigit && m2.isDigit && d1.isDigit && d2.isDigit &&
      h1.isDigit && h2.isDigit && mi1.isDigit && mi2.isDigit &&
      s1.isDigit && s2.isDigit
  | _ => false

/-- The numeric values of a record as the spec classifies them: only
number-typed values count, booleans (and strings and nulls) do not.
Stated from the spec's words, to be compared with `numericValuesPy`,
which follows the source's `isinstance(v, (int, float))` test. -/
def specNumericValues (r : Record) : List ℚ :=
  (r.map Prod.snd).filterMap fun v =>
    match v with
    | .num q => some q
    | _      => none

/-! ## Helper lemmas -/

lemma preprocess_eq_map (data : List Item) :
    MockPreprocessor.preprocess data = data.map MockPreprocessor.processItem := by
  induction data with
  | nil => rfl
  | cons item rest ih => simp [MockPreprocessor.preprocess, ih]

lemma predict_eq_map (data : List Item) :
    MockModel.predict data = data.map MockModel.scoreItem := by
  induction data with
  | nil => rfl
  | cons item rest ih => simp [MockModel.predict, ih]

lemma processedName_inj (k1 k2 : String)
    (h : "processed_" ++ k1 = "processed_" ++ k2) : k1 = k2 := by
  have hd : ("processed_" ++ k1).data = ("processed_" ++ k2).data :=
    congrArg String.data h
  simp only [String.data_append] at hd
  have h2 : k1.data = k2.data := List.append_cancel_left hd
  cases k1
  cases k2
  exact congrArg String.mk h2

/-! ## Concrete sanity checks from the spec's test table -/

example :
    MockPreprocessor.preprocess [Item.dict [("a", Value.num 2), ("b", Value.str "x")]] =
      [Item.dict [("processed_a", Value.num 20), ("processed_b", Value.str "x")]] := by
  norm_num [MockPreprocessor.preprocess, MockPreprocessor.processItem,
    MockPreprocessor.processRecord, scaleValue, isNumericPy, toNum]
  exact ⟨rfl, rfl⟩

example :
    MockModel.predict [Item.dict [("processed_a", Value.num 20)]] = [20] := by
  norm_num [MockModel.predict, MockModel.scoreItem, numericValuesPy, isNumericPy, toNum]

example :
    MockModel.predict (MockPreprocessor.preprocess
      [Item.dict [("feature1", Value.num 10), ("feature2", Value.num 20)]]) = [150] := by
  norm_num [MockModel.predict, MockModel.scoreItem, numericValuesPy, isNumericPy, toNum,
    MockPreprocessor.preprocess, MockPreprocessor.processItem,
    MockPreprocessor.processRecord, scaleValue]

/-! ## Claim theorems -/

/-- C1: with the AI feature enabled and both pipeline objects initialized,
`POST /predict` on the body holding the single record
`feature1 = 10, feature2 = 20` answers `predictions == [150.0]` with
`status == "success"`: preprocess scales both numeric fields by 10
(to 100 and 200) and predict returns their arithmetic mean 150. -/
theorem predict_endpoint_end_to_end :
    predictRoute initializedState
        [Item.dict [("feature1", Value.num 10), ("feature2", Value.num 20)]] =
      .ok { predictions := [150], status := "success" } := by
  norm_num [predictRoute, initializedState, MockModel.predict, MockModel.scoreItem,
    numericValuesPy, isNumericPy, toNum, MockPreprocessor.preprocess,
    MockPreprocessor.processItem, MockPreprocessor.processRecord, scaleValue]

/-- C2 counterexample: the claim says a boolean value is non-numeric and
passes through unchanged, but Python's `isinstance(v, (int, float))`
accepts booleans (`bool` subclasses `int`), so the preprocess stage
multiplies `True` by 10 and emits the number 10, not the boolean. -/
theorem preprocess_bool_scaled_cex :
    MockPreprocessor.preprocess [Item.dict [("flag", Value.bool true)]] =
      [Item.dict [("processed_flag", Value.num 10)]] ∧
    Value.num 10 ≠ Value.bool true := by
  constructor
  · norm_num [MockPreprocessor.preprocess, MockPreprocessor.processItem,
      MockPreprocessor.processRecord, scaleValue, isNumericPy, toNum]
    rfl
  · intro h
    cases h

/-- C2 (amended): for every `(field, value)` pair of a record, the
preprocess stage emits the field under the name `processed_<field>`;
a number `q` is emitted scaled to `q * 10`, a boolean is also scaled
(it passes Python's numeric test, `True` giving 10 and `False` giving 0),
and a string or null is emitted unchanged in value. -/
theorem preprocess_field_mapping (r : Record) (k : String) :
    (∀ q : ℚ, (k, Value.num q) ∈ r →
        ("processed_" ++ k, Value.num (q * 10)) ∈ MockPreprocessor.processRecord r) ∧
    (∀ b : Bool, (k, Value.bool b) ∈ r →
        ("processed_" ++ k, Value.num (if b then 10 else 0)) ∈
          MockPreprocessor.processRecord r) ∧
    (∀ s : String, (k, Value.str s) ∈ r →
        ("processed_" ++ k, Value.str s) ∈ MockPreprocessor.processRecord r) ∧
    ((k, Value.null) ∈ r →
        ("processed_" ++ k, Value.null) ∈ MockPreprocessor.processRecord r) := by
  refine ⟨?_, ?_, ?_, ?_⟩
  · intro q h
    have := List.mem_map_of_mem (fun kv => ("processed_" ++ kv.1, scaleValue kv.2)) h
    simpa [MockPreprocessor.processRecord, scaleValue, isNumericPy, toNum] using this
  · intro b h
    have := List.mem_map_of_mem (fun kv => ("processed_" ++ kv.1, scaleValue kv.2)) h
    cases b <;>
      simpa [MockPreprocessor.processRecord, scaleValue, isNumericPy, toNum] using this
  · intro s h
    have := List.mem_map_of_mem (fun kv => ("processed_" ++ kv.1, scaleValue kv.2)) h
    simpa [MockPreprocessor.processRecord, scaleValue, isNumericPy, toNum] using this
  · intro h
    have := List.mem_map_of_mem (fun kv => ("processed_" ++ kv.1, scaleValue kv.2)) h
    simpa [MockPreprocessor.processRecord, scaleValue, isNumericPy, toNum] using this

/-- Witness for the amended C2 theorem at the record holding `a = 2`. -/
theorem preprocess_field_mapping_witness :
    ("processed_" ++ "a", Value.num (2 * 10)) ∈
      MockPreprocessor.processRecord [("a", Value.num 2)] :=
  (preprocess_field_mapping [("a", Value.num 2)] "a").1 2 (by simp)

/-- C3 counterexample: on the record `flag = True, x = 3` the claim (with
the spec's classification, under which booleans are not numeric) demands
the mean of `[3]`, namely 3, but the code's numeric test accepts `True`
as 1 and `MockModel.predict` returns the mean of `[1, 3]`, namely 2. -/
theorem predict_bool_counted_cex :
    MockModel.predict [Item.dict [("flag", Value.bool true), ("x", Value.num 3)]] =
      [2] ∧
    mean (specNumericValues [("flag", Value.bool true), ("x", Value.num 3)]) = 3 ∧
    (2 : ℚ) ≠ 3 := by
  refine ⟨?_, ?_, by norm_num⟩
  · norm_num [MockModel.predict, MockModel.scoreItem, numericValuesPy, isNumericPy, toNum]
  · norm_num [mean, specNumericValues, List.filterMap_cons, List.filterMap_nil]

/-- C3 (amended): for every input item, the predict stage outputs the
arithmetic mean of the values passing Python's numeric test — which
counts booleans, `True` as 1 and `False` as 0 — when at least one such
value exists; it outputs the default 0.5 when the item is a mapping with
no such values, and 0.5 when the item is not a mapping. -/
theorem predict_stage_characterization (r : Record) (v : Value) :
    (numericValuesPy r ≠ [] →
        MockModel.scoreItem (Item.dict r) = mean (numericValuesPy r)) ∧
    (numericValuesPy r = [] → MockModel.scoreItem (Item.dict r) = 0.5) ∧
    MockModel.scoreItem (Item.scalar v) = 0.5 := by
  refine ⟨?_, ?_, rfl⟩
  · intro h
    have hne : (numericValuesPy r).isEmpty = false := by
      simpa [List.isEmpty_iff] using h
    simp [MockModel.scoreItem, hne, mean]
  · intro h
    simp [MockModel.scoreItem, h]

/-- Witness for the amended C3 theorem at the record holding `a = 6`. -/
theorem predict_stage_characterization_witness :
    MockModel.scoreItem (Item.dict [("a", Value.num 6)]) =
      mean (numericValuesPy [("a", Value.num 6)]) :=
  (predict_stage_characterization [("a", Value.num 6)] Value.null).1
    (by simp [numericValuesPy, isNumericPy])

/-- C4: the claimed gate behavior is the code's documented intent, but
the dependency wiring defeats it.  The lambda's unannotated parameter
`x` is a required query parameter, never the request object, so every
request to the gated dashboard route — whatever its `X-Admin-Token`
header carries — fails with 422 when the `?x=` query parameter is
absent, or with 500 when it is present (the lambda's `x.headers`
raises `AttributeError` on a `str`).  The route never answers the 401
challenge of `authenticate_admin`, and the wrapped handler never
executes, even when the header equals the configured secret. -/
theorem admin_gate_wiring_bug :
    (∀ req : AdminRequest,
        adminDashboardRoute req ≠ .error authError ∧
        ∀ resp, adminDashboardRoute req ≠ .ok resp) ∧
    adminDashboardRoute ⟨none, some FAKE_ADMIN_TOKEN⟩ = .error validationError ∧
    adminDashboardRoute ⟨some "anything", some FAKE_ADMIN_TOKEN⟩ =
      .error attributeError := by
  refine ⟨fun req => ?_, rfl, rfl⟩
  obtain ⟨qx, ht⟩ := req
  cases qx <;>
    simp [adminDashboardRoute, resolveTokenDep, tokenLambda, validationError,
      attributeError, authError]

/-- C5: `GET /health` does answer `status == "healthy"` with the static
service name, but its timestamp is not an ISO-8601 string with a single
trailing `Z`: `isoformat` on an aware UTC datetime already appends the
numeric offset `+00:00`, so the handler returns
`...T10:00:00+00:00Z`, contradicting the `Field` example
`2023-10-27T10:00:00Z` in the source's own `HealthCheckResponse` model. -/
theorem health_check_timestamp_bug :
    (health_check ⟨2023, 10, 27, 10, 0, 0⟩).status = "healthy" ∧
    (health_check ⟨2023, 10, 27, 10, 0, 0⟩).service = PROJECT_NAME ∧
    (health_check ⟨2023, 10, 27, 10, 0, 0⟩).timestamp =
      "2023-10-27T10:00:00+00:00Z" ∧
    isIso8601Z (health_check ⟨2023, 10, 27, 10, 0, 0⟩).timestamp = false ∧
    isIso8601Z "2023-10-27T10:00:00Z" = true := by
  refine ⟨rfl, rfl, ?_, ?_, ?_⟩ <;> decide

/-- C6: the pipeline `predict(preprocess(records))` is the elementwise map
of per-record preprocessing followed by per-record scoring — hence it
produces exactly one score per input record, in input order — and the
empty input list produces the empty output list. -/
theorem pipeline_one_score_per_record :
    (∀ records : List Item,
        MockModel.predict (MockPreprocessor.preprocess records) =
          records.map (fun item =>
            MockModel.scoreItem (MockPreprocessor.processItem item)) ∧
        (MockModel.predict (MockPreprocessor.preprocess records)).length =
          records.length) ∧
    MockModel.predict (MockPreprocessor.preprocess []) = [] := by
  refine ⟨fun records => ?_, rfl⟩
  have h1 := preprocess_eq_map records
  have h2 := predict_eq_map (MockPreprocessor.preprocess records)
  constructor
  · rw [h2, h1, List.map_map]
    rfl
  · rw [h2, h1]
    simp

/-- C7: when the AI feature ended up administratively disabled at
startup, the installed `/predict` handler is `predict_disabled`, which
fails with status 403 regardless of the request body and of the state of
the pipeline globals. -/
theorem predict_disabled_always_403 (m p : Option Unit) (data : List Item) :
    predictRoute ⟨false, m, p⟩ data =
      .error { status_code := 403,
               detail := "AI features are disabled for this service." } := rfl

/-- C8: when the AI feature is enabled but `ml_model` or `preprocessor`
is still `None`, every invocation of `POST /predict` fails with status
503, regardless of the request body. -/
theorem predict_unavailable_503 (st : AppState) (data : List Item)
    (he : st.aiEnabled = true)
    (hn : st.ml_model = none ∨ st.preprocessor = none) :
    predictRoute st data =
      .error { status_code := 503,
               detail := "AI models are not loaded or available." } := by
  obtain ⟨e, m, p⟩ := st
  simp only at he
  subst he
  cases m <;> cases p <;> simp_all [predictRoute]

/-- Witness for C8 at an enabled state whose model global is `None`. -/
theorem predict_unavailable_503_witness :
    predictRoute ⟨true, none, some ()⟩ [] =
      .error { status_code := 503,
               detail := "AI models are not loaded or available." } :=
  predict_unavailable_503 ⟨true, none, some ()⟩ [] rfl (Or.inl rfl)

/-- C9: the predict stage is total — it yields exactly one score per
input item — and the mean's division is only reached when the collected
list of numeric values is non-empty, in which case its denominator, the
length of that list, is strictly positive: no division by zero occurs. -/
theorem predict_total_no_div_by_zero :
    (∀ data : List Item, (MockModel.predict data).length = data.length) ∧
    (∀ r : Record, numericValuesPy r ≠ [] →
        MockModel.scoreItem (Item.dict r) =
          (numericValuesPy r).sum / ((numericValuesPy r).length : ℚ) ∧
        (0 : ℚ) < ((numericValuesPy r).length : ℚ)) := by
  constructor
  · intro data
    rw [predict_eq_map]
    simp
  · intro r h
    have hne : (numericValuesPy r).isEmpty = false := by
      simpa [List.isEmpty_iff] using h
    refine ⟨by simp [MockModel.scoreItem, hne], ?_⟩
    have hl : 0 < (numericValuesPy r).length := List.length_pos.mpr h
    exact_mod_cast hl

/-- Witness for C9 at the record holding `a = 4`. -/
theorem predict_total_no_div_by_zero_witness :
    MockModel.scoreItem (Item.dict [("a", Value.num 4)]) =
      (numericValuesPy [("a", Value.num 4)]).sum /
        ((numericValuesPy [("a", Value.num 4)]).length : ℚ) ∧
    (0 : ℚ) < ((numericValuesPy [("a", Value.num 4)]).length : ℚ) :=
  predict_total_no_div_by_zero.2 [("a", Value.num 4)]
    (by simp [numericValuesPy, isNumericPy])

/-- C10: the field renaming of the preprocess stage is injective — equal
renamed keys force equal original keys — so for every record the
comprehension's output has exactly one field per input field (the length
is preserved) and distinct input keys stay distinct (no key collisions). -/
theorem preprocess_preserves_field_count :
    (∀ k1 k2 : String, "processed_" ++ k1 = "processed_" ++ k2 → k1 = k2) ∧
    (∀ r : Record,
        (MockPreprocessor.processRecord r).length = r.length ∧
        ((r.map Prod.fst).Nodup →
            ((MockPreprocessor.processRecord r).map Prod.fst).Nodup)) := by
  refine ⟨processedName_inj, fun r => ⟨by simp [MockPreprocessor.processRecord], ?_⟩⟩
  intro hnd
  have hk : (MockPreprocessor.processRecord r).map Prod.fst =
      (r.map Prod.fst).map (fun k => "processed_" ++ k) := by
    simp [MockPreprocessor.processRecord, List.map_map]
  rw [hk]
  exact hnd.map (fun k1 k2 h => processedName_inj k1 k2 h)

/-- Witness for C10 at a two-field record with distinct keys. -/
theorem preprocess_preserves_field_count_witness :
    ((MockPreprocessor.processRecord
        [("a", Value.num 1), ("b", Value.str "x")]).map Prod.fst).Nodup :=
  (preprocess_preserves_field_count.2
      [("a", Value.num 1), ("b", Value.str "x")]).2 (by simp)
